import Mathlib

/-!
Verification of the claim-bot workflow engine and record synthesizer.

This file is a shallow embedding, in Lean 4, of the parts of the
`langgraph-pydantic-claimbot` repository that the verified properties are
about:

* `models.py`     — the data model (`Intent`, `PartialClaim`, `ClaimCreate`,
  `SQLResponse`);
* `synthesizer.py` — the record synthesizer (`synthesize_claim` and its
  reference tables);
* `nodes.py`      — the per-stage node functions over the shared
  `AgentState`;
* `langgraph_workflow.py` — the routing functions and the graph wiring of
  `build_graph`, embedded as the single-turn executor `runTurn`.

Modelling conventions:

* Python `Optional[T]` becomes `Option T`; Python truthiness of an optional
  string (`if s:` is false for both `None` and `""`) is `strTruthy`, and
  `x or y` on optional strings / ints is `strOr` / `intOr` (Python `0` is
  falsy, so `intOr` falls through on `0` exactly as the source does).
* Every call to `random.choice(lst)` on a (always non-empty, literal) list
  becomes `choice lst d i` — indexing by an arbitrary natural number modulo
  the list length, with an inert default `d` that is provably never used on
  the non-empty lists of the source.  All random draws of one call to the
  synthesizer are collected in a `Rand` record, so "for all `r : Rand`"
  quantifies over every possible outcome of the source's hidden RNG, and
  `fake.name()` (the Faker library) is the oracle field `Rand.fakeName`.
* `datetime` values are modelled as integer timestamps (seconds); the claims
  under verification never inspect dates beyond presence.
* The external LLM agents (`intent_agent`, `extraction_agent`, `sql_agent`),
  the SQLite executor and the HTTP claim-submission endpoint of `nodes.py`
  are oracles collected in an `Oracles` record; an oracle returning `none`
  or `Except.error` models the corresponding Python call raising an
  exception, which each node catches exactly where the source does.
-/

namespace ClaimBot

/-! ## Python truthiness helpers -/

/-- Truthiness of an optional Python string: `None` and `""` are falsy. -/
def strTruthy : Option String → Bool
  | none => false
  | some s => s != ""

/-- Python `x or y` for an optional string `x` (falls through on `None`/`""`). -/
def strOr (x : Option String) (y : String) : String :=
  match x with
  | none => y
  | some s => if s = "" then y else s

/-- Python `x or y` for an optional int `x` (falls through on `None`/`0`). -/
def intOr (x : Option Int) (y : Int) : Int :=
  match x with
  | none => y
  | some n => if n = 0 then y else n

/-- Model of `random.choice(l)`: pick the element at an arbitrary index `i`
reduced modulo the length.  The default `d` is only reachable on `l = []`,
which never happens for the source's literal tables. -/
def choice {α : Type} (l : List α) (d : α) (i : Nat) : α :=
  l.getD (i % l.length) d

/-! ## Data model (`models.py`) -/

/-- The `action` literal of `models.Intent`. -/
inductive Action
  | create
  | retrieve
  | unknown
deriving DecidableEq, Repr

/-- `models.Intent`. -/
structure Intent where
  action : Action
  query_details : Option String := none
deriving DecidableEq, Repr

/-- `models.PartialClaim`: every extracted field is optional. -/
structure PartialClaim where
  policy_holder_name : Option String := none
  policy_number : Option String := none
  vehicle_make : Option String := none
  vehicle_model : Option String := none
  vehicle_year : Option Int := none
  incident_date : Option Int := none
  incident_description : Option String := none
  adjuster_name : Option String := none
  status : Option String := none
  company : Option String := none
  claim_office : Option String := none
  point_of_impact : Option String := none
deriving DecidableEq, Repr

/-- `models.ClaimCreate`: the complete record; no field is optional. -/
structure ClaimCreate where
  policy_holder_name : String
  policy_number : String
  vehicle_make : String
  vehicle_model : String
  vehicle_year : Int
  incident_date : Int
  incident_description : String
  adjuster_name : String
  status : String
  company : String
  claim_office : String
  point_of_impact : String
deriving DecidableEq, Repr

/-- `models.SQLQuery` (the validated-query half of `SQLResponse`). -/
structure SQLQuery where
  sql : String
  explanation : Option String := none
deriving DecidableEq, Repr

/-- `models.SQLResponse = Union[SQLQuery, InvalidSQLRequest]` as a tagged
variant; `invalid` carries `InvalidSQLRequest.error_message`. -/
inductive SQLResponse
  | ok (q : SQLQuery)
  | invalid (error_message : String)
deriving DecidableEq, Repr

/-! ## Synthesizer reference tables (`synthesizer.py`) -/

/-- Table `ADJUSTER_NAMES` of `synthesizer.py`. -/
def ADJUSTER_NAMES : List String :=
  ["Ryan Cooper", "Olivia Harris", "Daniel Brooks", "Chloe Bennett",
   "Ethan Carter", "Mia Foster", "Noah Evans", "Ava Green",
   "Liam Jenkins", "Isabella King"]

/-- Table `STATUSES` of `synthesizer.py`. -/
def STATUSES : List String :=
  ["Submitted", "Approved", "Rejected", "Repair in Progress"]

/-- Dict `COMPANY_OFFICES` of `synthesizer.py` as an association list. -/
def COMPANY_OFFICES : List (String × List String) :=
  [("Alpha Insurance", ["Chicago Office", "Los Angeles Office", "New York Office"]),
   ("Beta Insurance", ["Houston Office", "Miami Office", "Phoenix Office"]),
   ("Delta Insurance", ["Atlanta Office", "Dallas Office", "San Francisco Office"]),
   ("Gamma Insurance", ["Boston Office", "Denver Office", "Seattle Office"])]

/-- Table `DEFAULT_VEHICLES` of `synthesizer.py`. -/
def DEFAULT_VEHICLES : List (String × String × Int) :=
  [("Toyota", "Camry", 2020),
   ("Honda", "Civic", 2021),
   ("Ford", "F-150", 2019),
   ("Chevrolet", "Malibu", 2022),
   ("Nissan", "Altima", 2018),
   ("BMW", "3 Series", 2020),
   ("Mercedes-Benz", "C-Class", 2021),
   ("Tesla", "Model 3", 2023),
   ("Subaru", "Outback", 2019)]

/-- Table `INCIDENT_IMPACT_MAPPING` of `synthesizer.py`. -/
def INCIDENT_IMPACT_MAPPING : List (String × String) :=
  [("Rear-ended at a traffic signal", "Rear bumper"),
   ("Hit a parked car while reversing", "Rear bumper"),
   ("Backed into a pole", "Rear bumper"),
   ("Minor collision in parking lot, front impact", "Front bumper"),
   ("Hit a deer crossing the road", "Front bumper"),
   ("Collision with debris on highway", "Front bumper/Underbody"),
   ("Side-swiped driver side while parked", "Driver side"),
   ("T-boned on the driver side at intersection", "Driver side"),
   ("Another car merged into driver side lane", "Driver side"),
   ("Side-swiped passenger side", "Passenger side"),
   ("Scraped passenger side against wall", "Passenger side"),
   ("Object fell on roof", "Roof"),
   ("Hail damage", "Roof/Hood/Trunk"),
   ("Windshield cracked by rock from truck", "Windshield"),
   ("Hit a pothole causing tire/wheel damage", "Wheel/Suspension"),
   ("Skidded on ice and hit guardrail", "Front/Side"),
   ("Hydroplaned into a ditch", "Underbody/Side"),
   ("Vandalism - keyed along the side", "Driver side/Passenger side"),
   ("Attempted theft, broken window", "Driver side window/Passenger side window"),
   ("Fender bender in slow traffic", "Front bumper/Rear bumper")]

/-- Source: `DEFAULT_IMPACTS = list(set(item[1] for item in INCIDENT_IMPACT_MAPPING))`
— the de-duplicated impact values.  Python's set order is unspecified; the
claims only ever use membership in this list, which is order-independent. -/
def DEFAULT_IMPACTS : List String :=
  (INCIDENT_IMPACT_MAPPING.map Prod.snd).eraseDups

/-! ## Random generators of `synthesizer.py` -/

/-- One synthesizer call's worth of external randomness (hidden global RNG
plus the Faker name generator), made explicit. -/
structure Rand where
  fakeName : String := "Jane Doe"
  policyNum : Nat := 0
  vehicleIdx : Nat := 0
  dateSecs : Nat := 0
  incidentIdx : Nat := 0
  impactIdx : Nat := 0
  adjusterIdx : Nat := 0
  statusIdx : Nat := 0
  companyIdx : Nat := 0
  officeIdx : Nat := 0
deriving Repr

/-- Source: `generate_policy_number`, i.e. `POL-` followed by
`random.randint(100000, 999999)` (inclusive on both ends: 900000 values). -/
def generate_policy_number (r : Rand) : String :=
  "POL-" ++ toString (100000 + r.policyNum % 900000)

/-- Naive timestamp of `datetime(2025, 1, 1, 0, 0, 0)` (seconds since epoch). -/
def START_DATE_SECS : Int := 1735689600

/-- Source: `generate_incident_date`; the span from 2025-01-01 00:00:00 to
2025-03-31 23:59:59 is 7775999 seconds, and `random.randint(0, 7775999)` is
inclusive, so the draw is modulo 7776000. -/
def generate_incident_date (r : Rand) : Int :=
  START_DATE_SECS + Int.ofNat (r.dateSecs % 7776000)

/-- Source: `generate_vehicle`, i.e. `random.choice(DEFAULT_VEHICLES)`. -/
def generate_vehicle (r : Rand) : String × String × Int :=
  choice DEFAULT_VEHICLES ("", "", 0) r.vehicleIdx

/-- Source: `generate_incident_and_impact`, i.e.
`random.choice(INCIDENT_IMPACT_MAPPING)`. -/
def generate_incident_and_impact (r : Rand) : String × String :=
  choice INCIDENT_IMPACT_MAPPING ("", "") r.incidentIdx

/-! ## Case-insensitive substring matching

The description/impact matching loop of `synthesize_claim` uses Python's
`needle in hay` substring test on lower-cased strings.  We implement the
substring test directly on character lists. -/

/-- Whether `hay` starts with the character list `needle`. -/
def listStarts : List Char → List Char → Bool
  | [], _ => true
  | _ :: _, [] => false
  | a :: as, b :: bs => a == b && listStarts as bs

/-- Whether `needle` occurs as a contiguous sublist of `hay`
(Python `needle in hay` for strings). -/
def listHasSub (needle : List Char) : List Char → Bool
  | [] => listStarts needle []
  | b :: bs => listStarts needle (b :: bs) || listHasSub needle bs

/-- Python `needle in hay` on strings. -/
def substr (needle hay : String) : Bool :=
  listHasSub needle.toList hay.toList

/-! ## The synthesizer (`synthesize_claim`)

The body of `synthesize_claim` is embedded in three pieces, matching the
three commented blocks of the source: the description/impact block
(`synthesizer.py` lines 94–124), the company/office block (lines 130–152)
and the top-level field fills. -/

/-- The description/impact block of `synthesize_claim`
(`synthesizer.py` lines 94–124): returns `(inc_desc, impact)`. -/
def synthDescImpact (extracted_desc extracted_impact : Option String) (r : Rand) :
    String × String :=
  if strTruthy extracted_desc then
    let inc_desc := extracted_desc.getD ""
    if strTruthy extracted_impact then
      (inc_desc, extracted_impact.getD "")
    else
      match INCIDENT_IMPACT_MAPPING.find?
          (fun dm => substr dm.1.toLower inc_desc.toLower ||
                     substr inc_desc.toLower dm.1.toLower) with
      | some dm => (inc_desc, dm.2)
      | none => (inc_desc, choice DEFAULT_IMPACTS "" r.impactIdx)
  else
    let gen := generate_incident_and_impact r
    if strTruthy extracted_impact then
      (gen.1, extracted_impact.getD "")
    else
      gen

/-- Offices of a company in `COMPANY_OFFICES` (`COMPANY_OFFICES[c]`);
`[]` when the company is not a key, which the source never reaches because
every access is guarded by a membership test. -/
def officesOf (c : String) : List String :=
  match COMPANY_OFFICES.find? (fun p => p.1 == c) with
  | some p => p.2
  | none => []

/-- The company/office block of `synthesize_claim`
(`synthesizer.py` lines 130–152): returns `(company, office)`. -/
def synthCompanyOffice (company0 office0 : Option String) (r : Rand) :
    String × String :=
  if strTruthy company0 && (COMPANY_OFFICES.find? (fun p => p.1 == company0.getD "")).isSome then
    let company := company0.getD ""
    let offices := officesOf company
    if !strTruthy office0 || !(offices.contains (office0.getD "")) then
      (company, choice offices "" r.officeIdx)
    else
      (company, office0.getD "")
  else if strTruthy company0 then
    let company := choice (COMPANY_OFFICES.map Prod.fst) "" r.companyIdx
    (company, choice (officesOf company) "" r.officeIdx)
  else
    let company := choice (COMPANY_OFFICES.map Prod.fst) "" r.companyIdx
    if !strTruthy office0 then
      (company, choice (officesOf company) "" r.officeIdx)
    else
      let office := office0.getD ""
      match COMPANY_OFFICES.find? (fun p => p.2.contains office) with
      | some p => (p.1, office)
      | none => (company, choice (officesOf company) "" r.officeIdx)

/-- Source: `synthesize_claim(partial_claim)` of `synthesizer.py`, with the
hidden randomness made explicit as `r`. -/
def synthesize_claim (p : PartialClaim) (r : Rand) : ClaimCreate :=
  let name := strOr p.policy_holder_name r.fakeName
  let policy_num := strOr p.policy_number (generate_policy_number r)
  let v := generate_vehicle r
  let vehicle_make := strOr p.vehicle_make v.1
  let vehicle_model := strOr p.vehicle_model v.2.1
  let vehicle_year := intOr p.vehicle_year v.2.2
  let inc_date := p.incident_date.getD (generate_incident_date r)
  let di := synthDescImpact p.incident_description p.point_of_impact r
  let adjuster := strOr p.adjuster_name (choice ADJUSTER_NAMES "" r.adjusterIdx)
  let status := strOr p.status (choice STATUSES "" r.statusIdx)
  let co := synthCompanyOffice p.company p.claim_office r
  { policy_holder_name := name
    policy_number := policy_num
    vehicle_make := vehicle_make
    vehicle_model := vehicle_model
    vehicle_year := vehicle_year
    incident_date := inc_date
    incident_description := di.1
    adjuster_name := adjuster
    status := status
    company := co.1
    claim_office := co.2
    point_of_impact := di.2 }

/-! ## Workflow state and oracles (`nodes.py`, `langgraph_workflow.py`) -/

/-- A transcript message; the only distinction `analyze_message_node` makes
is `isinstance(last_message, HumanMessage)`. -/
inductive Message
  | human (content : String)
  | other (content : String)
deriving DecidableEq, Repr

/-- A result row of `db_utils.execute_sql` (a sqlite row as a dict); values
are modelled as their rendered strings, which is all
`generate_response_node` ever does with them. -/
def Row : Type := List (String × String)

instance : DecidableEq Row := inferInstanceAs (DecidableEq (List (String × String)))

/-- Python `row.get(k, d)`. -/
def rowGet (row : Row) (k d : String) : String :=
  match row.find? (fun p => p.1 == k) with
  | some p => p.2
  | none => d

/-- The JSON object returned by the claim-creation API
(`response.json()` in `post_claim_node`), again as a string-valued dict. -/
def PostResult : Type := List (String × String)

instance : DecidableEq PostResult := inferInstanceAs (DecidableEq (List (String × String)))

/-- The `AgentState` TypedDict of `nodes.py`. -/
structure AgentState where
  messages : List Message := []
  intent_analysis : Option Intent := none
  claim_extraction : Option PartialClaim := none
  sql_response : Option SQLResponse := none
  sql_results : Option (List Row) := none
  sql_error : Option String := none
  synthesized_claim : Option ClaimCreate := none
  post_result : Option PostResult := none
  post_error : Option String := none
  final_response : Option String := none
deriving DecidableEq

/-- External-call events observed while running one turn, used to state
which collaborators a path does (not) invoke. -/
inductive Event
  | enter (node : String)
  | callIntent
  | callExtraction
  | callSqlAgent
  | callExecSql
  | callPost
deriving DecidableEq, Repr

/-- The external collaborators of `nodes.py`, as oracles.  A `none` /
`Except.error` result models the corresponding Python call raising an
exception (each node catches it exactly where the source does); for
`post_claim` the error string is the formatted message the node stores into
`post_error`, and for `execute_sql` the pair is the `(results, error)`
return value of `db_utils.execute_sql` while `Except.error` is an
unexpected exception from the call itself. -/
structure Oracles where
  intent_agent : String → Option Intent
  extraction_agent : String → Option PartialClaim
  sql_agent : String → Except String SQLResponse
  execute_sql : String → Except String (List Row × Option String)
  post_claim : ClaimCreate → Except String PostResult
  rand : Rand

/-! ## Node functions (`nodes.py`) -/

/-- Source: `analyze_message_node`.  Returns `none` for the one failure the
engine does not contain: `state['messages'][-1]` on an empty transcript
raises IndexError out of the graph. -/
def analyze_message_node (env : Oracles) (s : AgentState) :
    Option (AgentState × List Event) :=
  match s.messages.getLast? with
  | none => none
  | some (.other _) =>
      some ({ s with final_response := some "Internal error: Expected user message." }, [])
  | some (.human user_query) =>
      let intent_analysis :=
        match env.intent_agent user_query with
        | some i => i
        | none => { action := .unknown, query_details := none }
      if intent_analysis.action = .create then
        some ({ s with intent_analysis := some intent_analysis,
                       claim_extraction := env.extraction_agent user_query },
              [.callIntent, .callExtraction])
      else
        some ({ s with intent_analysis := some intent_analysis,
                       claim_extraction := none },
              [.callIntent])

/-- Source: `generate_sql_node`. -/
def generate_sql_node (env : Oracles) (s : AgentState) : AgentState × List Event :=
  match s.intent_analysis with
  | some ia =>
      if ia.action = .retrieve ∧ strTruthy ia.query_details then
        match env.sql_agent (ia.query_details.getD "") with
        | .ok resp => ({ s with sql_response := some resp }, [.callSqlAgent])
        | .error e =>
            ({ s with sql_response := some (.invalid ("Failed to generate SQL: " ++ e)) },
             [.callSqlAgent])
      else if ia.action = .retrieve then
        ({ s with sql_response := some (.invalid "Please provide more specific details for the claim you want to retrieve (e.g., claim ID, policy number, status).") },
         [])
      else
        ({ s with sql_response := none }, [])
  | none => ({ s with sql_response := none }, [])

/-- Source: `execute_sql_node`. -/
def execute_sql_node (env : Oracles) (s : AgentState) : AgentState × List Event :=
  match s.sql_response with
  | some (.ok q) =>
      match env.execute_sql q.sql with
      | .ok (results, error) =>
          ({ s with sql_results := some results, sql_error := error }, [.callExecSql])
      | .error e =>
          ({ s with sql_results := none,
                    sql_error := some ("Unexpected error executing query: " ++ e) },
           [.callExecSql])
  | _ => ({ s with sql_results := none, sql_error := none }, [])

/-- Source: `synthesize_claim_node` (the `synthesize_claim` call cannot
raise, so the source's try/except is inert). -/
def synthesize_claim_node (env : Oracles) (s : AgentState) : AgentState × List Event :=
  match s.claim_extraction with
  | some pc =>
      ({ s with synthesized_claim := some (synthesize_claim pc env.rand) }, [])
  | none => ({ s with synthesized_claim := none }, [])

/-- Source: `post_claim_node`. -/
def post_claim_node (env : Oracles) (s : AgentState) : AgentState × List Event :=
  match s.synthesized_claim with
  | some c =>
      match env.post_claim c with
      | .ok res => ({ s with post_result := some res, post_error := none }, [.callPost])
      | .error e => ({ s with post_result := none, post_error := some e }, [.callPost])
  | none =>
      ({ s with post_result := none,
                post_error := some "No synthesized claim data to post." }, [])

/-! ## Final response (`generate_response_node`) -/

/-- A JSON object rendering standing in for `json.dumps` on a string-valued
dict; the verified claims never inspect serialized text beyond
(non-)emptiness of the surrounding message. -/
def dumpPairs (l : List (String × String)) : String :=
  "\x7b" ++ String.intercalate ", "
    (l.map (fun p => "\"" ++ p.1 ++ "\": \"" ++ p.2 ++ "\"")) ++ "\x7d"

/-- The field dict of a complete claim, in `models.ClaimCreate` field order
(standing in for `model_dump`). -/
def claimPairs (c : ClaimCreate) : List (String × String) :=
  [("policy_holder_name", c.policy_holder_name),
   ("policy_number", c.policy_number),
   ("vehicle_make", c.vehicle_make),
   ("vehicle_model", c.vehicle_model),
   ("vehicle_year", toString c.vehicle_year),
   ("incident_date", toString c.incident_date),
   ("incident_description", c.incident_description),
   ("adjuster_name", c.adjuster_name),
   ("status", c.status),
   ("company", c.company),
   ("claim_office", c.claim_office),
   ("point_of_impact", c.point_of_impact)]

/-- One line of the retrieved-claims listing of `generate_response_node`. -/
def formatRow (res : Row) : String :=
  "- Claim ID: `" ++ rowGet res "id" "N/A" ++ "`, Status: `" ++
    rowGet res "status" "N/A" ++ "`, Holder: `" ++
    rowGet res "policy_holder_name" "N/A" ++ "`"

/-- Computation of `response_str` in `generate_response_node`.  Python truthiness is preserved:
`if post_error:` and `elif sql_error:` are false on `None` and `""`
(`strTruthy`), `elif post_result and ...` is false on an empty dict, while
`elif sql_results is not None:` deliberately accepts an empty list.  The
source's initial default string ("Sorry, I couldn't process your request
completely. ...") is unreachable because `Intent.action` has exactly the
three literals matched below. -/
def responseText (s : AgentState) : String :=
  match s.intent_analysis with
    | some ia =>
      match ia.action with
      | .create =>
          if strTruthy s.post_error then
            "I tried to create the claim, but encountered an error: " ++
              s.post_error.getD "" ++ ". The synthesized details were:\n```json\n" ++
              (match s.synthesized_claim with
               | some c => dumpPairs (claimPairs c)
               | none => "\x7b\x7d") ++ "\n```"
          else
            match s.post_result with
            | some res =>
                if res ≠ [] ∧ (res.find? (fun p => p.1 == "id")).isSome then
                  "Successfully created claim with ID: `" ++ rowGet res "id" "" ++
                    "`. Here are the full details:\n```json\n" ++ dumpPairs res ++ "\n```"
                else if s.synthesized_claim.isSome then
                  "Claim was synthesized, but confirmation from the API was unclear. Details:\n```json\n" ++
                    (match s.synthesized_claim with
                     | some c => dumpPairs (claimPairs c)
                     | none => "") ++ "\n```"
                else
                  "I understood you want to create a claim, but couldn't finalize the details or submit it."
            | none =>
                if s.synthesized_claim.isSome then
                  "Claim was synthesized, but confirmation from the API was unclear. Details:\n```json\n" ++
                    (match s.synthesized_claim with
                     | some c => dumpPairs (claimPairs c)
                     | none => "") ++ "\n```"
                else
                  "I understood you want to create a claim, but couldn't finalize the details or submit it."
      | .retrieve =>
          match s.sql_response with
          | some (.invalid em) => em
          | _ =>
              if strTruthy s.sql_error then
                "I tried to retrieve the claims, but encountered a database error: " ++
                  s.sql_error.getD ""
              else
                match s.sql_results with
                | some results =>
                    if results ≠ [] then
                      "Found the following claim(s):\n" ++
                        String.intercalate "\n" (results.map formatRow)
                    else
                      "I couldn't find any claims matching your criteria."
                | none =>
                    "I generated a query for your request, but couldn't retrieve the results."
      | .unknown =>
          "Okay, how can I help you specifically with creating or retrieving an auto insurance claim?"
    | none => "Sorry, I had trouble understanding your initial request."

/-- The state update of `generate_response_node`: store `response_str` into
`final_response`. -/
def generate_response_node (s : AgentState) : AgentState :=
  { s with final_response := some (responseText s) }

/-! ## Routing and the graph (`langgraph_workflow.py`) -/

/-- The codomain of `route_after_analysis`. -/
inductive Route1
  | toGenerateSql
  | toSynthesizeClaim
  | toGenerateResponse
  | toEnd
deriving DecidableEq, Repr

/-- Source: `route_after_analysis`. -/
def route_after_analysis (s : AgentState) : Route1 :=
  match s.intent_analysis with
  | some ia =>
      match ia.action with
      | .create => .toSynthesizeClaim
      | .retrieve => .toGenerateSql
      | .unknown => .toGenerateResponse
  | none => .toEnd

/-- Source: `route_after_sql_generation` (`true` = `execute_sql`). -/
def route_after_sql_generation (s : AgentState) : Bool :=
  match s.sql_response with
  | some (.ok _) => true
  | _ => false

/-- One turn through the graph wired by `build_graph`:
START → analyze_message → (conditional: route_after_analysis) →
generate_sql → (conditional: route_after_sql_generation) → execute_sql,
with the unconditional edges synthesize_claim → post_claim,
post_claim → generate_response, execute_sql → generate_response and
generate_response → END.  Returns the final state and the ordered event
trace, or `none` when analyze_message raises (empty transcript). -/
def runTurn (env : Oracles) (s0 : AgentState) : Option (AgentState × List Event) :=
  match analyze_message_node env s0 with
  | none => none
  | some (s1, e1) =>
    let ev1 := Event.enter "analyze_message" :: e1
    match route_after_analysis s1 with
    | .toEnd => some (s1, ev1)
    | .toGenerateResponse =>
        some (generate_response_node s1, ev1 ++ [.enter "generate_response"])
    | .toSynthesizeClaim =>
        let n2 := synthesize_claim_node env s1
        let n3 := post_claim_node env n2.1
        some (generate_response_node n3.1,
              ev1 ++ [.enter "synthesize_claim"] ++ n2.2 ++
                [.enter "post_claim"] ++ n3.2 ++ [.enter "generate_response"])
    | .toGenerateSql =>
        let n2 := generate_sql_node env s1
        let ev2 := ev1 ++ [.enter "generate_sql"] ++ n2.2
        if route_after_sql_generation n2.1 then
          let n3 := execute_sql_node env n2.1
          some (generate_response_node n3.1,
                ev2 ++ [.enter "execute_sql"] ++ n3.2 ++ [.enter "generate_response"])
        else
          some (generate_response_node n2.1, ev2 ++ [.enter "generate_response"])


/-! ## Derived predicates and views used by the verified properties -/

/-- Whether `(c, o)` occurs together as a company/office pair of the
reference table `COMPANY_OFFICES`. -/
def validPair (c o : String) : Bool :=
  COMPANY_OFFICES.any (fun p => p.1 == c && p.2.contains o)

/-- View of a complete record as a fully populated sparse record
(every field wrapped in `some`). -/
def toPartialClaim (c : ClaimCreate) : PartialClaim :=
  { policy_holder_name := some c.policy_holder_name,
    policy_number := some c.policy_number,
    vehicle_make := some c.vehicle_make,
    vehicle_model := some c.vehicle_model,
    vehicle_year := some c.vehicle_year,
    incident_date := some c.incident_date,
    incident_description := some c.incident_description,
    adjuster_name := some c.adjuster_name,
    status := some c.status,
    company := some c.company,
    claim_office := some c.claim_office,
    point_of_impact := some c.point_of_impact }

/-- All twelve fields of a sparse record are present (non-null). -/
def allFieldsPopulated (p : PartialClaim) : Bool :=
  p.policy_holder_name.isSome && p.policy_number.isSome && p.vehicle_make.isSome &&
  p.vehicle_model.isSome && p.vehicle_year.isSome && p.incident_date.isSome &&
  p.incident_description.isSome && p.adjuster_name.isSome && p.status.isSome &&
  p.company.isSome && p.claim_office.isSome && p.point_of_impact.isSome

/-- Premise of the round-trip property: every field is populated with a
valid value — non-empty strings, a non-zero vehicle year (zero is falsy in
Python and would be regenerated), and a company/office pair from the
reference table. -/
def validPopulated (p : PartialClaim) : Bool :=
  strTruthy p.policy_holder_name && strTruthy p.policy_number &&
  strTruthy p.vehicle_make && strTruthy p.vehicle_model &&
  (match p.vehicle_year with | some n => n != 0 | none => false) &&
  p.incident_date.isSome &&
  strTruthy p.incident_description && strTruthy p.point_of_impact &&
  strTruthy p.adjuster_name && strTruthy p.status &&
  (match p.company, p.claim_office with
   | some c, some o => validPair c o
   | _, _ => false)

/-- Collapse an extracted empty string to absence. -/
def blankToNone (x : Option String) : Option String :=
  match x with
  | some s => if s = "" then none else some s
  | none => none

/-- Apply `blankToNone` to every string field of a sparse record. -/
def normalizeBlank (p : PartialClaim) : PartialClaim :=
  { p with
    policy_holder_name := blankToNone p.policy_holder_name,
    policy_number := blankToNone p.policy_number,
    vehicle_make := blankToNone p.vehicle_make,
    vehicle_model := blankToNone p.vehicle_model,
    incident_description := blankToNone p.incident_description,
    adjuster_name := blankToNone p.adjuster_name,
    status := blankToNone p.status,
    company := blankToNone p.company,
    claim_office := blankToNone p.claim_office,
    point_of_impact := blankToNone p.point_of_impact }

/-- No string field of a complete record is the empty string. -/
def noBlankFields (c : ClaimCreate) : Bool :=
  c.policy_holder_name != "" && c.policy_number != "" && c.vehicle_make != "" &&
  c.vehicle_model != "" && c.incident_description != "" && c.adjuster_name != "" &&
  c.status != "" && c.company != "" && c.claim_office != "" && c.point_of_impact != ""

/-! ## Concrete inputs used by counterexamples and witnesses -/

/-- A sparse record with only the vehicle make extracted. -/
def hondaOnly : PartialClaim := { vehicle_make := some "Honda" }

/-- A fully populated sparse record with valid values. -/
def pFull : PartialClaim :=
  { policy_holder_name := some "John Smith",
    policy_number := some "POL-123456",
    vehicle_make := some "Honda",
    vehicle_model := some "Civic",
    vehicle_year := some 2021,
    incident_date := some 1735689600,
    incident_description := some "Hail damage",
    adjuster_name := some "Ryan Cooper",
    status := some "Approved",
    company := some "Beta Insurance",
    claim_office := some "Miami Office",
    point_of_impact := some "Roof/Hood/Trunk" }

/-- Oracles for a retrieve turn whose SQL oracle answers with a rejection
whose `error_message` is the empty string (allowed by `models.py`, which
puts no minimum length on `InvalidSQLRequest.error_message`). -/
def envEmptyRejection : Oracles :=
  { intent_agent := fun _ => some { action := .retrieve, query_details := some "all claims" },
    extraction_agent := fun _ => none,
    sql_agent := fun _ => .ok (.invalid ""),
    execute_sql := fun _ => .error "not reached",
    post_claim := fun _ => .error "not reached",
    rand := {} }

/-- Initial state of a retrieve turn. -/
def stateRetrieve : AgentState := { messages := [.human "show me claims"] }

/-- Oracles for a create turn whose extraction stage raises, so no sparse
record reaches the synthesizer. -/
def envCreateNoExtract : Oracles :=
  { intent_agent := fun _ => some { action := .create, query_details := none },
    extraction_agent := fun _ => none,
    sql_agent := fun _ => .error "not reached",
    execute_sql := fun _ => .error "not reached",
    post_claim := fun _ => .error "not reached",
    rand := {} }

/-- Initial state of a create turn. -/
def stateCreate : AgentState := { messages := [.human "I need to file a claim"] }

/-- Oracles classifying the message as `unknown`. -/
def envUnknownIntent : Oracles :=
  { intent_agent := fun _ => some { action := .unknown, query_details := none },
    extraction_agent := fun _ => none,
    sql_agent := fun _ => .error "not reached",
    execute_sql := fun _ => .error "not reached",
    post_claim := fun _ => .error "not reached",
    rand := {} }

/-- Initial state of an off-topic turn. -/
def stateThanks : AgentState := { messages := [.human "Thanks!"] }

/-- Oracles for a retrieve turn classified without any query details. -/
def envRetrieveNoDetails : Oracles :=
  { intent_agent := fun _ => some { action := .retrieve, query_details := none },
    extraction_agent := fun _ => none,
    sql_agent := fun _ => .error "not reached",
    execute_sql := fun _ => .error "not reached",
    post_claim := fun _ => .error "not reached",
    rand := {} }

/-- Oracles for the delete-request scenario: the SQL oracle rejects the
request with a fixed refusal message. -/
def envDeleteRejection : Oracles :=
  { intent_agent := fun _ => some { action := .retrieve, query_details := some "delete claim 123" },
    extraction_agent := fun _ => none,
    sql_agent := fun _ => .ok (.invalid "I cannot perform delete operations."),
    execute_sql := fun _ => .error "not reached",
    post_claim := fun _ => .error "not reached",
    rand := {} }

/-- Initial state of the delete-request turn. -/
def stateDelete : AgentState := { messages := [.human "delete claim 123"] }

/-! ## Helper lemmas: lists, truthiness, strings -/

theorem choice_mem {α : Type} (l : List α) (d : α) (i : Nat) (h : l ≠ []) :
    choice l d i ∈ l := by
  have hl : i % l.length < l.length := Nat.mod_lt _ (List.length_pos.mpr h)
  show (l.get? (i % l.length)).getD d ∈ l
  rw [List.get?_eq_get hl]
  exact List.get_mem l _ _

theorem strTruthy_some {x : Option String} (h : strTruthy x = true) :
    ∃ s, x = some s ∧ s ≠ "" := by
  cases x with
  | none => simp [strTruthy] at h
  | some s => exact ⟨s, rfl, by simpa [strTruthy, bne_iff_ne] using h⟩

theorem strTruthy_of_ne {s : String} (h : s ≠ "") : strTruthy (some s) = true := by
  simpa [strTruthy, bne_iff_ne] using h

theorem strOr_some {s : String} (h : s ≠ "") (y : String) : strOr (some s) y = s := by
  simp [strOr, h]

theorem intOr_some {n : Int} (h : n ≠ 0) (y : Int) : intOr (some n) y = n := by
  simp [intOr, h]

theorem append_ne_empty (a b : String) (h : a ≠ "") : a ++ b ≠ "" := by
  intro hc
  apply h
  have hlen : (a ++ b).length = 0 := by rw [hc]; rfl
  rw [String.length_append] at hlen
  have h0 : a.length = 0 := by omega
  cases a with
  | mk data =>
    cases data with
    | nil => rfl
    | cons ch cs => simp [String.length] at h0

theorem strOr_ne (x : Option String) {y : String} (hy : y ≠ "") : strOr x y ≠ "" := by
  rcases x with _ | s
  · simpa [strOr] using hy
  · by_cases h : s = ""
    · simp [strOr, h, hy]
    · simp [strOr, h]

/-! ## Helper lemmas: the company/office reference table -/

theorem validPair_of_mem {pr : String × List String} {o : String}
    (hm : pr ∈ COMPANY_OFFICES) (ho : o ∈ pr.2) : validPair pr.1 o = true := by
  unfold validPair
  rw [List.any_eq_true]
  exact ⟨pr, hm, by simp [ho]⟩

theorem validPair_elim {c o : String} (h : validPair c o = true) :
    ∃ pr, pr ∈ COMPANY_OFFICES ∧ pr.1 = c ∧ o ∈ pr.2 := by
  unfold validPair at h
  rw [List.any_eq_true] at h
  obtain ⟨pr, hm, hp⟩ := h
  simp only [Bool.and_eq_true, beq_iff_eq] at hp
  exact ⟨pr, hm, hp.1, by simpa using hp.2⟩

theorem offices_ne_nil : ∀ pr ∈ COMPANY_OFFICES, pr.2 ≠ [] := by decide

theorem keys_ne_nil : COMPANY_OFFICES.map Prod.fst ≠ [] := by decide

theorem key_offices_valid : ∀ c ∈ COMPANY_OFFICES.map Prod.fst,
    officesOf c ≠ [] ∧ ∀ o ∈ officesOf c, validPair c o = true := by decide

theorem find_self : ∀ pr ∈ COMPANY_OFFICES,
    (COMPANY_OFFICES.find? fun p => p.1 == pr.1) = some pr := by decide

theorem entries_nonblank : ∀ pr ∈ COMPANY_OFFICES, pr.1 ≠ "" ∧ ∀ o ∈ pr.2, o ≠ "" := by
  decide

theorem valid_choice_company (i j : Nat) :
    validPair (choice (COMPANY_OFFICES.map Prod.fst) "" i)
      (choice (officesOf (choice (COMPANY_OFFICES.map Prod.fst) "" i)) "" j) = true := by
  have hck := choice_mem (COMPANY_OFFICES.map Prod.fst) "" i keys_ne_nil
  obtain ⟨hne, hval⟩ := key_offices_valid _ hck
  exact hval _ (choice_mem _ _ _ hne)

theorem find?_company_eq {c : String} {pr : String × List String}
    (h : (COMPANY_OFFICES.find? fun p => p.1 == c) = some pr) :
    pr.1 = c ∧ pr ∈ COMPANY_OFFICES ∧ officesOf c = pr.2 := by
  have h1 := List.find?_some h
  have h2 := List.mem_of_find?_eq_some h
  simp only [beq_iff_eq] at h1
  refine ⟨h1, h2, ?_⟩
  unfold officesOf
  rw [h]

/-! ## Helper lemmas: the company/office block of the synthesizer -/

theorem synthCompanyOffice_valid (company0 office0 : Option String) (r : Rand) :
    validPair (synthCompanyOffice company0 office0 r).1
      (synthCompanyOffice company0 office0 r).2 = true := by
  unfold synthCompanyOffice
  split
  case isTrue h1 =>
    rw [Bool.and_eq_true] at h1
    obtain ⟨pr, hfind⟩ := Option.isSome_iff_exists.mp h1.2
    obtain ⟨hprc, hprm, hoff⟩ := find?_company_eq hfind
    dsimp only
    rw [hoff]
    split
    case isTrue h2 =>
      have hmem := choice_mem pr.2 "" r.officeIdx (offices_ne_nil pr hprm)
      rw [← hprc]
      exact validPair_of_mem hprm hmem
    case isFalse h2 =>
      simp only [Bool.or_eq_true, Bool.not_eq_true', not_or] at h2
      have hcontains : pr.2.contains (office0.getD "") = true := by
        rcases Bool.eq_false_or_eq_true (pr.2.contains (office0.getD "")) with ht | hf
        · exact ht
        · exact absurd hf h2.2
      rw [← hprc]
      exact validPair_of_mem hprm (by simpa using hcontains)
  case isFalse h1 =>
    split
    · exact valid_choice_company r.companyIdx r.officeIdx
    · split
      · exact valid_choice_company r.companyIdx r.officeIdx
      · dsimp only
        split
        case h_1 pr hfind =>
          have hc := List.find?_some hfind
          have hm := List.mem_of_find?_eq_some hfind
          exact validPair_of_mem hm (by simpa using hc)
        case h_2 => exact valid_choice_company r.companyIdx r.officeIdx

theorem synthCompanyOffice_keep {c o : String} (h : validPair c o = true) (r : Rand) :
    synthCompanyOffice (some c) (some o) r = (c, o) := by
  obtain ⟨pr, hm, hc, ho⟩ := validPair_elim h
  obtain ⟨hc_ne, hoffs_ne⟩ := entries_nonblank pr hm
  have ho_ne : o ≠ "" := hoffs_ne o ho
  have hfind : (COMPANY_OFFICES.find? fun p => p.1 == c) = some pr := by
    have := find_self pr hm
    rwa [hc] at this
  have hco : officesOf c = pr.2 := by
    unfold officesOf
    rw [hfind]
  unfold synthCompanyOffice
  rw [if_pos]
  · dsimp only
    simp only [Option.getD_some, hco]
    rw [if_neg]
    simp only [strTruthy_of_ne ho_ne, Bool.not_true, Bool.false_or, Bool.not_eq_true,
      Bool.not_eq_false]
    simpa using ho
  · simp only [Option.getD_some, hfind, Option.isSome_some, Bool.and_true]
    rw [hc] at hc_ne
    exact strTruthy_of_ne hc_ne

theorem validPair_nonblank {c o : String} (h : validPair c o = true) :
    c ≠ "" ∧ o ≠ "" := by
  obtain ⟨pr, hm, hc, ho⟩ := validPair_elim h
  obtain ⟨h1, h2⟩ := entries_nonblank pr hm
  exact ⟨hc ▸ h1, h2 o ho⟩

theorem synthCompanyOffice_nonblank (c o : Option String) (r : Rand) :
    (synthCompanyOffice c o r).1 ≠ "" ∧ (synthCompanyOffice c o r).2 ≠ "" :=
  validPair_nonblank (synthCompanyOffice_valid c o r)

/-! ## Helper lemmas: the description/impact block of the synthesizer -/

theorem synthDescImpact_keep {d i : String} (hd : d ≠ "") (hi : i ≠ "") (r : Rand) :
    synthDescImpact (some d) (some i) r = (d, i) := by
  unfold synthDescImpact
  rw [if_pos (strTruthy_of_ne hd)]
  dsimp only
  rw [if_pos (strTruthy_of_ne hi)]
  simp

theorem vehicles_nonblank : ∀ v ∈ DEFAULT_VEHICLES, v.1 ≠ "" ∧ v.2.1 ≠ "" := by decide

theorem default_vehicles_ne_nil : DEFAULT_VEHICLES ≠ [] := by decide

theorem generate_vehicle_nonblank (r : Rand) :
    (generate_vehicle r).1 ≠ "" ∧ (generate_vehicle r).2.1 ≠ "" :=
  vehicles_nonblank _ (choice_mem _ _ _ default_vehicles_ne_nil)

theorem generate_policy_number_ne (r : Rand) : generate_policy_number r ≠ "" :=
  append_ne_empty _ _ (by decide)

theorem mapping_nonblank : ∀ pr ∈ INCIDENT_IMPACT_MAPPING, pr.1 ≠ "" ∧ pr.2 ≠ "" := by
  decide

theorem mapping_ne_nil : INCIDENT_IMPACT_MAPPING ≠ [] := by decide

theorem impacts_nonblank : ∀ o ∈ DEFAULT_IMPACTS, o ≠ "" := by decide

theorem impacts_ne_nil : DEFAULT_IMPACTS ≠ [] := by decide

theorem adjusters_nonblank : ∀ a ∈ ADJUSTER_NAMES, a ≠ "" := by decide

theorem adjusters_ne_nil : ADJUSTER_NAMES ≠ [] := by decide

theorem statuses_nonblank : ∀ a ∈ STATUSES, a ≠ "" := by decide

theorem statuses_ne_nil : STATUSES ≠ [] := by decide

theorem synthDescImpact_nonblank (d i : Option String) (r : Rand) :
    (synthDescImpact d i r).1 ≠ "" ∧ (synthDescImpact d i r).2 ≠ "" := by
  have hgen := mapping_nonblank _
    (choice_mem INCIDENT_IMPACT_MAPPING ("", "") r.incidentIdx mapping_ne_nil)
  unfold synthDescImpact
  split
  case isTrue hd =>
    obtain ⟨ds, hdeq, hdne⟩ := strTruthy_some hd
    dsimp only
    rw [hdeq]
    split
    case isTrue hi =>
      obtain ⟨is2, hieq, hine⟩ := strTruthy_some hi
      rw [hieq]
      exact ⟨hdne, hine⟩
    case isFalse hi =>
      split
      case h_1 dm hfind =>
        exact ⟨hdne, (mapping_nonblank dm (List.mem_of_find?_eq_some hfind)).2⟩
      case h_2 =>
        exact ⟨hdne, impacts_nonblank _ (choice_mem _ _ _ impacts_ne_nil)⟩
  case isFalse hd =>
    dsimp only
    split
    case isTrue hi =>
      obtain ⟨is2, hieq, hine⟩ := strTruthy_some hi
      rw [hieq]
      exact ⟨hgen.1, hine⟩
    case isFalse hi =>
      exact hgen

/-! ## Helper lemmas: empty-string normalization -/

theorem strTruthy_blank (x : Option String) : strTruthy (blankToNone x) = strTruthy x := by
  rcases x with _ | s
  · rfl
  · by_cases h : s = "" <;> simp [blankToNone, strTruthy, h]

theorem blankToNone_truthy {x : Option String} (h : strTruthy x = true) :
    blankToNone x = x := by
  obtain ⟨s, rfl, hs⟩ := strTruthy_some h
  simp [blankToNone, hs]

theorem strOr_blank (x : Option String) (y : String) :
    strOr (blankToNone x) y = strOr x y := by
  rcases x with _ | s
  · rfl
  · by_cases h : s = "" <;> simp [blankToNone, strOr, h]

theorem synthDescImpact_blank (d i : Option String) (r : Rand) :
    synthDescImpact (blankToNone d) (blankToNone i) r = synthDescImpact d i r := by
  by_cases hd : strTruthy d = true
  · by_cases hi : strTruthy i = true
    · simp [synthDescImpact, strTruthy_blank, hd, hi, blankToNone_truthy hd,
        blankToNone_truthy hi]
    · simp [synthDescImpact, strTruthy_blank, hd, hi, blankToNone_truthy hd]
  · by_cases hi : strTruthy i = true
    · simp [synthDescImpact, strTruthy_blank, hd, hi, blankToNone_truthy hi]
    · simp [synthDescImpact, strTruthy_blank, hd, hi]

theorem synthCompanyOffice_blank (c o : Option String) (r : Rand) :
    synthCompanyOffice (blankToNone c) (blankToNone o) r = synthCompanyOffice c o r := by
  by_cases hc : strTruthy c = true
  · rw [blankToNone_truthy hc]
    by_cases ho : strTruthy o = true
    · rw [blankToNone_truthy ho]
    · have ho2 : strTruthy o = false := by simpa using ho
      have hob : strTruthy (blankToNone o) = false := by rw [strTruthy_blank]; exact ho2
      simp [synthCompanyOffice, ho2, hob]
  · have hc2 : strTruthy c = false := by simpa using hc
    have hcb : strTruthy (blankToNone c) = false := by rw [strTruthy_blank]; exact hc2
    by_cases ho : strTruthy o = true
    · rw [blankToNone_truthy ho]
      simp [synthCompanyOffice, hc2, hcb]
    · have ho2 : strTruthy o = false := by simpa using ho
      have hob : strTruthy (blankToNone o) = false := by rw [strTruthy_blank]; exact ho2
      simp [synthCompanyOffice, hc2, hcb, ho2, hob]

/-! ## Helper lemmas: routing inversion -/

theorem route_toEnd_inv {s : AgentState} (h : route_after_analysis s = .toEnd) :
    s.intent_analysis = none := by
  unfold route_after_analysis at h
  rcases hs : s.intent_analysis with _ | ia
  · rfl
  · rw [hs] at h
    rcases ia with ⟨a, qd⟩
    cases a <;> simp at h

theorem route_toGenResp_inv {s : AgentState}
    (h : route_after_analysis s = .toGenerateResponse) :
    ∃ ia, s.intent_analysis = some ia ∧ ia.action = .unknown := by
  unfold route_after_analysis at h
  rcases hs : s.intent_analysis with _ | ia
  · rw [hs] at h; simp at h
  · rw [hs] at h
    rcases ia with ⟨a, qd⟩
    cases a
    · simp at h
    · simp at h
    · exact ⟨⟨.unknown, qd⟩, rfl, rfl⟩

theorem route_toSynth_inv {s : AgentState}
    (h : route_after_analysis s = .toSynthesizeClaim) :
    ∃ ia, s.intent_analysis = some ia ∧ ia.action = .create := by
  unfold route_after_analysis at h
  rcases hs : s.intent_analysis with _ | ia
  · rw [hs] at h; simp at h
  · rw [hs] at h
    rcases ia with ⟨a, qd⟩
    cases a
    · exact ⟨⟨.create, qd⟩, rfl, rfl⟩
    · simp at h
    · simp at h

theorem route_toSql_inv {s : AgentState}
    (h : route_after_analysis s = .toGenerateSql) :
    ∃ ia, s.intent_analysis = some ia ∧ ia.action = .retrieve := by
  unfold route_after_analysis at h
  rcases hs : s.intent_analysis with _ | ia
  · rw [hs] at h; simp at h
  · rw [hs] at h
    rcases ia with ⟨a, qd⟩
    cases a
    · simp at h
    · exact ⟨⟨.retrieve, qd⟩, rfl, rfl⟩
    · simp at h

/-! ## Helper lemmas: node frame conditions -/

theorem synthesize_claim_node_intent (env : Oracles) (s : AgentState) :
    ((synthesize_claim_node env s).1).intent_analysis = s.intent_analysis := by
  unfold synthesize_claim_node
  rcases h : s.claim_extraction with _ | pc <;> simp

theorem post_claim_node_intent (env : Oracles) (s : AgentState) :
    ((post_claim_node env s).1).intent_analysis = s.intent_analysis := by
  unfold post_claim_node
  rcases h : s.synthesized_claim with _ | c
  · simp
  · rcases hp : env.post_claim c with e | res <;> simp [hp]

theorem generate_sql_node_intent (env : Oracles) (s : AgentState) :
    ((generate_sql_node env s).1).intent_analysis = s.intent_analysis := by
  unfold generate_sql_node
  rcases h : s.intent_analysis with _ | ia
  · simp
  · dsimp only
    split
    · rcases hq : env.sql_agent (ia.query_details.getD "") with e | resp <;> simp [hq]
    · split <;> simp

theorem execute_sql_node_intent (env : Oracles) (s : AgentState) :
    ((execute_sql_node env s).1).intent_analysis = s.intent_analysis := by
  unfold execute_sql_node
  rcases h : s.sql_response with _ | r
  · simp
  · rcases r with q | em
    · rcases hq : env.execute_sql q.sql with e | pr
      · simp [hq]
      · rcases pr with ⟨results, error⟩
        simp [hq]
    · simp

theorem execute_sql_node_sqlresp (env : Oracles) (s : AgentState) :
    ((execute_sql_node env s).1).sql_response = s.sql_response := by
  unfold execute_sql_node
  rcases h : s.sql_response with _ | r
  · simp
  · rcases r with q | em
    · rcases hq : env.execute_sql q.sql with e | pr
      · simp [hq, h]
      · rcases pr with ⟨results, error⟩
        simp [hq, h]
    · simp [h]

/-! ## Helper lemmas: the final response is never empty text -/

theorem responseText_nonempty_other {s : AgentState} {ia : Intent}
    (hia : s.intent_analysis = some ia) (hact : ia.action ≠ .retrieve) :
    responseText s ≠ "" := by
  unfold responseText
  rw [hia]
  rcases ia with ⟨a, qd⟩
  cases a
  · dsimp only
    split
    · apply append_ne_empty
      apply append_ne_empty
      apply append_ne_empty
      apply append_ne_empty
      decide
    · split
      · split
        · apply append_ne_empty
          apply append_ne_empty
          apply append_ne_empty
          apply append_ne_empty
          decide
        · split
          · apply append_ne_empty
            apply append_ne_empty
            decide
          · decide
      · split
        · apply append_ne_empty
          apply append_ne_empty
          decide
        · decide
  · exact absurd rfl hact
  · dsimp only
    decide

theorem responseText_nonempty_retrieve {s : AgentState} {ia : Intent}
    (hia : s.intent_analysis = some ia) (hact : ia.action = .retrieve)
    (hsql : ∀ em, s.sql_response = some (.invalid em) → em ≠ "") :
    responseText s ≠ "" := by
  unfold responseText
  rw [hia]
  rcases ia with ⟨a, qd⟩
  cases hact
  dsimp only
  rcases hr : s.sql_response with _ | r
  · dsimp only
    split
    · apply append_ne_empty
      decide
    · split
      · split
        · apply append_ne_empty
          decide
        · decide
      · decide
  · rcases r with q | em
    · dsimp only
      split
      · apply append_ne_empty
        decide
      · split
        · split
          · apply append_ne_empty
            decide
          · decide
        · decide
    · exact hsql em hr

/-! ## Helper lemmas: node outcome characterizations -/

theorem analyze_none_intent {env : Oracles} {s0 s1 : AgentState} {e1 : List Event}
    (h : analyze_message_node env s0 = some (s1, e1))
    (hnone : s1.intent_analysis = none) :
    s1.final_response = some "Internal error: Expected user message." := by
  unfold analyze_message_node at h
  rcases hm : s0.messages.getLast? with _ | m
  · rw [hm] at h
    exact absurd h (by simp)
  · rcases m with q | q
    · rw [hm] at h
      dsimp only at h
      split at h <;>
        · simp at h
          obtain ⟨h1, h2⟩ := h
          rw [← h1] at hnone
          simp at hnone
    · rw [hm] at h
      dsimp only at h
      simp at h
      obtain ⟨h1, h2⟩ := h
      rw [← h1]

theorem generate_sql_invalid_ne {env : Oracles} {s : AgentState} {em : String}
    (hsql : ∀ d em2, env.sql_agent d = .ok (.invalid em2) → em2 ≠ "")
    (h : ((generate_sql_node env s).1).sql_response = some (.invalid em)) :
    em ≠ "" := by
  unfold generate_sql_node at h
  rcases hi : s.intent_analysis with _ | ia
  · rw [hi] at h
    simp at h
  · rw [hi] at h
    dsimp only at h
    split at h
    · rcases hq : env.sql_agent (ia.query_details.getD "") with e | resp
      · rw [hq] at h
        simp at h
        rw [← h]
        apply append_ne_empty
        decide
      · rw [hq] at h
        simp at h
        exact hsql _ _ (h ▸ hq)
    · split at h
      · simp at h
        rw [← h]
        decide
      · simp at h

/-! ## Claim C1 -/

/-- Claim C1, counterexample to the claim as stated.  The claim asserts
that every turn's `final_response` is a non-empty string for every
combination of stage outcomes.  On a retrieve turn whose SQL oracle
returns a rejection with an empty `error_message` (which `models.py`
permits: `InvalidSQLRequest.error_message` has no minimum length, unlike
`SQLQuery.sql`), `generate_response_node` copies the rejection text
verbatim, so `final_response` is set to the empty string. -/
theorem C1_counterexample :
    (runTurn envEmptyRejection stateRetrieve).map (fun res => res.1.final_response) =
      some (some "") := rfl

/-- Claim C1 (amended): for every turn that runs to the end state,
`final_response` is set to a string, and that string is non-empty provided
every rejection returned by the SQL oracle carries a non-empty error
message.  All other failure combinations — intent-oracle exceptions,
extraction failures, submission errors, execution errors, empty result
sets, non-human last messages — produce non-empty text unconditionally. -/
theorem C1_amended_final_response_nonempty (env : Oracles) (s0 s' : AgentState)
    (ev : List Event) (hrun : runTurn env s0 = some (s', ev))
    (hsql : ∀ d em, env.sql_agent d = .ok (.invalid em) → em ≠ "") :
    ∃ resp, s'.final_response = some resp ∧ resp ≠ "" := by
  unfold runTurn at hrun
  rcases han : analyze_message_node env s0 with _ | p
  · rw [han] at hrun
    simp at hrun
  · rcases p with ⟨s1, e1⟩
    rw [han] at hrun
    dsimp only at hrun
    rcases hroute : route_after_analysis s1 with _ | _ | _ | _
    case toGenerateSql =>
      rw [hroute] at hrun
      dsimp only at hrun
      obtain ⟨ia, hia, hact⟩ := route_toSql_inv hroute
      have hia2 : ((generate_sql_node env s1).1).intent_analysis = some ia := by
        rw [generate_sql_node_intent]; exact hia
      have hsql2 : ∀ em, ((generate_sql_node env s1).1).sql_response =
          some (.invalid em) → em ≠ "" := fun em hh => generate_sql_invalid_ne hsql hh
      split at hrun
      · simp at hrun
        obtain ⟨h1, h2⟩ := hrun
        rw [← h1]
        refine ⟨_, rfl, ?_⟩
        refine responseText_nonempty_retrieve ?_ hact ?_
        · rw [execute_sql_node_intent]; exact hia2
        · intro em hh
          rw [execute_sql_node_sqlresp] at hh
          exact hsql2 em hh
      · simp at hrun
        obtain ⟨h1, h2⟩ := hrun
        rw [← h1]
        exact ⟨_, rfl, responseText_nonempty_retrieve hia2 hact hsql2⟩
    case toSynthesizeClaim =>
      rw [hroute] at hrun
      dsimp only at hrun
      obtain ⟨ia, hia, hact⟩ := route_toSynth_inv hroute
      simp at hrun
      obtain ⟨h1, h2⟩ := hrun
      rw [← h1]
      refine ⟨_, rfl, @responseText_nonempty_other _ ia ?_ ?_⟩
      · rw [post_claim_node_intent, synthesize_claim_node_intent]; exact hia
      · rw [hact]; decide
    case toGenerateResponse =>
      rw [hroute] at hrun
      dsimp only at hrun
      obtain ⟨ia, hia, hact⟩ := route_toGenResp_inv hroute
      simp at hrun
      obtain ⟨h1, h2⟩ := hrun
      rw [← h1]
      refine ⟨_, rfl, responseText_nonempty_other hia ?_⟩
      rw [hact]; decide
    case toEnd =>
      rw [hroute] at hrun
      dsimp only at hrun
      simp at hrun
      obtain ⟨h1, h2⟩ := hrun
      rw [← h1]
      exact ⟨_, analyze_none_intent han (route_toEnd_inv hroute), by decide⟩

/-- Claim C1, witness: a concrete `unknown`-intent turn completes with a
non-empty final response. -/
theorem C1_witness :
    ∃ resp, ((runTurn envUnknownIntent stateThanks).getD ({}, [])).1.final_response =
      some resp ∧ resp ≠ "" :=
  C1_amended_final_response_nonempty envUnknownIntent stateThanks _ _ rfl
    (fun d em h => by simp [envUnknownIntent] at h)

/-! ## Claim C2 -/

/-- Claim C2, counterexample to the claim as stated.  The claim asserts
that when synthesizing produces no record the submitting stage is skipped
and not entered.  On a concrete create turn whose extraction raises (so no
record reaches the synthesizer), the graph's unconditional edge
`synthesize_claim → post_claim` still enters the submitting node: the run
ends with `synthesized_claim = none` and the event trace contains
`enter "post_claim"`. -/
theorem C2_counterexample :
    (runTurn envCreateNoExtract stateCreate).map
      (fun res => (res.1.synthesized_claim, decide (Event.enter "post_claim" ∈ res.2))) =
      some (none, true) := rfl

/-- Claim C2 (amended): on every create-intent turn in which the
synthesizing stage produces no record, the workflow still enters the
submitting stage (`post_claim`) immediately after synthesizing; that stage
performs no submission call (no `callPost` event), records the submission
error "No synthesized claim data to post.", and the next stage is
responding. -/
theorem C2_amended_submitting_entered (env : Oracles) (s0 : AgentState) (q : String)
    (qd : Option String)
    (hlast : s0.messages.getLast? = some (.human q))
    (hintent : env.intent_agent q = some { action := .create, query_details := qd })
    (hext : env.extraction_agent q = none)
    (s' : AgentState) (ev : List Event) (hrun : runTurn env s0 = some (s', ev)) :
    ev = [.enter "analyze_message", .callIntent, .callExtraction,
          .enter "synthesize_claim", .enter "post_claim", .enter "generate_response"] ∧
    s'.synthesized_claim = none ∧
    s'.post_error = some "No synthesized claim data to post." ∧
    Event.callPost ∉ ev := by
  simp only [runTurn, analyze_message_node, hlast, hintent, hext] at hrun
  simp [route_after_analysis, synthesize_claim_node, post_claim_node,
    generate_response_node, responseText] at hrun
  obtain ⟨h1, h2⟩ := hrun
  refine ⟨?_, ?_, ?_, ?_⟩
  · rw [← h2]
  · rw [← h1]
  · rw [← h1]
  · rw [← h2]
    decide

/-- Claim C2, witness: the amended behaviour on the concrete create turn
with no extraction. -/
theorem C2_witness :
    ((runTurn envCreateNoExtract stateCreate).getD ({}, [])).2 =
      [.enter "analyze_message", .callIntent, .callExtraction,
       .enter "synthesize_claim", .enter "post_claim", .enter "generate_response"] ∧
    ((runTurn envCreateNoExtract stateCreate).getD ({}, [])).1.synthesized_claim = none ∧
    ((runTurn envCreateNoExtract stateCreate).getD ({}, [])).1.post_error =
      some "No synthesized claim data to post." ∧
    Event.callPost ∉ ((runTurn envCreateNoExtract stateCreate).getD ({}, [])).2 :=
  C2_amended_submitting_entered envCreateNoExtract stateCreate "I need to file a claim"
    none rfl rfl rfl _ _ rfl

/-! ## Claim C3 -/

/-- Claim C3: on every turn classified retrieve with absent query details,
the SQL oracle is never invoked and the final response is the fixed
insufficient-detail rejection produced by the query-generation stage. -/
theorem C3_insufficient_detail_short_circuit (env : Oracles) (s0 : AgentState)
    (q : String)
    (hlast : s0.messages.getLast? = some (.human q))
    (hintent : env.intent_agent q = some { action := .retrieve, query_details := none })
    (s' : AgentState) (ev : List Event) (hrun : runTurn env s0 = some (s', ev)) :
    Event.callSqlAgent ∉ ev ∧
    s'.final_response = some "Please provide more specific details for the claim you want to retrieve (e.g., claim ID, policy number, status)." := by
  simp only [runTurn, analyze_message_node, hlast, hintent] at hrun
  simp [route_after_analysis, generate_sql_node, strTruthy, route_after_sql_generation,
    generate_response_node, responseText] at hrun
  obtain ⟨h1, h2⟩ := hrun
  constructor
  · rw [← h2]
    decide
  · rw [← h1]

/-- Claim C3, witness: a concrete detail-less retrieve turn. -/
theorem C3_witness :
    Event.callSqlAgent ∉ ((runTurn envRetrieveNoDetails stateRetrieve).getD ({}, [])).2 ∧
    ((runTurn envRetrieveNoDetails stateRetrieve).getD ({}, [])).1.final_response =
      some "Please provide more specific details for the claim you want to retrieve (e.g., claim ID, policy number, status)." :=
  C3_insufficient_detail_short_circuit envRetrieveNoDetails stateRetrieve
    "show me claims" rfl rfl _ _ rfl

/-! ## Claim C4 -/

/-- Claim C4: for every sparse record given to the synthesizer and every
outcome of its randomness, the record returned by `synthesize_claim` has
every required field of the full schema populated with a (non-null)
value. -/
theorem C4_all_required_fields_populated (p : PartialClaim) (r : Rand) :
    allFieldsPopulated (toPartialClaim (synthesize_claim p r)) = true := rfl

/-! ## Claim C5 -/

/-- Claim C5: for every sparse record and every outcome of the
randomness, the record returned by `synthesize_claim` carries a
`(company, claim_office)` pair that appears together in the
`COMPANY_OFFICES` reference table — whatever was extracted, absent or
mutually inconsistent in the input. -/
theorem C5_company_office_valid_pair (p : PartialClaim) (r : Rand) :
    validPair (synthesize_claim p r).company (synthesize_claim p r).claim_office = true :=
  synthCompanyOffice_valid p.company p.claim_office r

/-! ## Claim C6 -/

/-- Claim C6: round trip — if every field of the sparse record is already
populated with a valid value (non-empty strings, non-zero vehicle year,
valid company/office pair), `synthesize_claim` returns the record
unchanged field for field. -/
theorem C6_round_trip_identity (p : PartialClaim) (r : Rand)
    (h : validPopulated p = true) :
    toPartialClaim (synthesize_claim p r) = p := by
  rcases p with ⟨n, pn, vmk, vmd, vy, idt, dsc, adj, st, co, off, poi⟩
  simp only [validPopulated, Bool.and_eq_true] at h
  obtain ⟨⟨⟨⟨⟨⟨⟨⟨⟨⟨h1, h2⟩, h3⟩, h4⟩, h5⟩, h6⟩, h7⟩, h8⟩, h9⟩, h10⟩, h11⟩ := h
  obtain ⟨ns, rfl, hn⟩ := strTruthy_some h1
  obtain ⟨pns, rfl, hpn⟩ := strTruthy_some h2
  obtain ⟨vmks, rfl, hvmk⟩ := strTruthy_some h3
  obtain ⟨vmds, rfl, hvmd⟩ := strTruthy_some h4
  obtain ⟨dscs, rfl, hdsc⟩ := strTruthy_some h7
  obtain ⟨pois, rfl, hpoi⟩ := strTruthy_some h8
  obtain ⟨adjs, rfl, hadj⟩ := strTruthy_some h9
  obtain ⟨sts, rfl, hst⟩ := strTruthy_some h10
  rcases vy with _ | vyn
  · simp at h5
  rcases idt with _ | idtn
  · simp at h6
  rcases co with _ | cos
  · simp at h11
  rcases off with _ | offs
  · simp at h11
  have hvy : vyn ≠ 0 := by simpa using h5
  simp only [synthesize_claim, toPartialClaim, strOr_some hn, strOr_some hpn,
    strOr_some hvmk, strOr_some hvmd, strOr_some hadj, strOr_some hst,
    intOr_some hvy, Option.getD_some,
    synthDescImpact_keep hdsc hpoi, synthCompanyOffice_keep h11]

/-- Claim C6, witness: the concrete fully populated record `pFull` comes
back unchanged. -/
theorem C6_witness : toPartialClaim (synthesize_claim pFull {}) = pFull :=
  C6_round_trip_identity pFull {} (by decide)

/-! ## Claim C7 -/

/-- Claim C7: if the sparse record's `(company, office)` pair already
appears together in the reference table, `synthesize_claim` returns
exactly that pair, whatever the state of the other fields. -/
theorem C7_valid_pair_preserved (p : PartialClaim) (r : Rand) (c o : String)
    (hc : p.company = some c) (ho : p.claim_office = some o)
    (h : validPair c o = true) :
    (synthesize_claim p r).company = c ∧ (synthesize_claim p r).claim_office = o := by
  have hk := synthCompanyOffice_keep h r
  constructor
  · show (synthCompanyOffice p.company p.claim_office r).1 = c
    rw [hc, ho, hk]
  · show (synthCompanyOffice p.company p.claim_office r).2 = o
    rw [hc, ho, hk]

/-- Claim C7, witness: the concrete valid pair Alpha Insurance / Chicago
Office is preserved. -/
theorem C7_witness :
    (synthesize_claim { company := some "Alpha Insurance",
                        claim_office := some "Chicago Office" } {}).company =
      "Alpha Insurance" ∧
    (synthesize_claim { company := some "Alpha Insurance",
                        claim_office := some "Chicago Office" } {}).claim_office =
      "Chicago Office" :=
  C7_valid_pair_preserved _ {} _ _ rfl rfl (by decide)

/-! ## Claim C8 -/

/-- Claim C8: on every retrieve turn whose SQL oracle returns a rejection
(`InvalidSQLRequest`), the query executor is never invoked (the
`execute_sql` node is not entered and no execution call happens) and the
final response equals the rejection's error message verbatim. -/
theorem C8_rejection_skips_executor (env : Oracles) (s0 : AgentState) (q d em : String)
    (hlast : s0.messages.getLast? = some (.human q))
    (hintent : env.intent_agent q = some { action := .retrieve, query_details := some d })
    (hd : d ≠ "")
    (hagent : env.sql_agent d = .ok (.invalid em))
    (s' : AgentState) (ev : List Event) (hrun : runTurn env s0 = some (s', ev)) :
    Event.callExecSql ∉ ev ∧ Event.enter "execute_sql" ∉ ev ∧
    s'.final_response = some em := by
  simp only [runTurn, analyze_message_node, hlast, hintent] at hrun
  simp [route_after_analysis, generate_sql_node, strTruthy, hd, hagent,
    route_after_sql_generation, generate_response_node, responseText] at hrun
  obtain ⟨h1, h2⟩ := hrun
  refine ⟨?_, ?_, ?_⟩
  · rw [← h2]
    decide
  · rw [← h2]
    decide
  · rw [← h1]

/-- Claim C8, witness: the delete-request scenario — the stubbed oracle
rejection "I cannot perform delete operations." is returned verbatim and
the executor is never entered. -/
theorem C8_witness :
    Event.callExecSql ∉ ((runTurn envDeleteRejection stateDelete).getD ({}, [])).2 ∧
    Event.enter "execute_sql" ∉ ((runTurn envDeleteRejection stateDelete).getD ({}, [])).2 ∧
    ((runTurn envDeleteRejection stateDelete).getD ({}, [])).1.final_response =
      some "I cannot perform delete operations." :=
  C8_rejection_skips_executor envDeleteRejection stateDelete "delete claim 123"
    "delete claim 123" "I cannot perform delete operations." rfl rfl (by decide) rfl
    _ _ rfl

/-! ## Claim C9 -/

/-- Claim C9: the synthesizer treats an empty-string extracted value
exactly as an absent one — replacing `some ""` by `none` in any string
field (description/impact and company/office couplings included) leaves
the output unchanged — and, provided the external name generator returns a
non-empty name, no string field of the output is ever the empty string. -/
theorem C9_empty_string_as_absent :
    (∀ (p : PartialClaim) (r : Rand),
      synthesize_claim (normalizeBlank p) r = synthesize_claim p r) ∧
    (∀ (p : PartialClaim) (r : Rand), r.fakeName ≠ "" →
      noBlankFields (synthesize_claim p r) = true) := by
  constructor
  · intro p r
    simp only [synthesize_claim, normalizeBlank, strOr_blank, synthDescImpact_blank,
      synthCompanyOffice_blank]
  · intro p r hf
    have hv := generate_vehicle_nonblank r
    have hdi := synthDescImpact_nonblank p.incident_description p.point_of_impact r
    have hco := synthCompanyOffice_nonblank p.company p.claim_office r
    simp only [noBlankFields, synthesize_claim, Bool.and_eq_true, bne_iff_ne]
    exact ⟨⟨⟨⟨⟨⟨⟨⟨⟨strOr_ne _ hf, strOr_ne _ (generate_policy_number_ne r)⟩,
      strOr_ne _ hv.1⟩, strOr_ne _ hv.2⟩, hdi.1⟩,
      strOr_ne _ (adjusters_nonblank _ (choice_mem _ _ _ adjusters_ne_nil))⟩,
      strOr_ne _ (statuses_nonblank _ (choice_mem _ _ _ statuses_ne_nil))⟩,
      hco.1⟩, hco.2⟩, hdi.2⟩

/-- Claim C9, witness: on the empty sparse record with the default
randomness the output has no blank field. -/
theorem C9_witness : noBlankFields (synthesize_claim {} {}) = true :=
  C9_empty_string_as_absent.2 {} {} (by decide)

/-! ## Claim C10 -/

/-- Claim C10: the vehicle fields are filled independently from one single
randomly drawn entry of `DEFAULT_VEHICLES` — each missing field takes that
entry's component while extracted fields are kept — so a partially
extracted vehicle can yield a (make, model, year) triple that matches no
entry of the table: extracting only the make "Honda" while the draw is the
first entry produces ("Honda", "Camry", 2020), which is not in the
table. -/
theorem C10_vehicle_fill_mixed :
    (∀ (p : PartialClaim) (r : Rand),
      (synthesize_claim p r).vehicle_make = strOr p.vehicle_make (generate_vehicle r).1 ∧
      (synthesize_claim p r).vehicle_model =
        strOr p.vehicle_model (generate_vehicle r).2.1 ∧
      (synthesize_claim p r).vehicle_year = intOr p.vehicle_year (generate_vehicle r).2.2) ∧
    ((synthesize_claim hondaOnly {}).vehicle_make = "Honda" ∧
     (synthesize_claim hondaOnly {}).vehicle_model = "Camry" ∧
     (synthesize_claim hondaOnly {}).vehicle_year = 2020 ∧
     ("Honda", "Camry", (2020 : Int)) ∉ DEFAULT_VEHICLES) :=
  ⟨fun p r => ⟨rfl, rfl, rfl⟩, by decide, by decide, by decide, by decide⟩

end ClaimBot
